import Mathlib

/-!
Verification of the protocol-handling layer of the SystemLink DataFrame
client (`nisystemlink.clients.dataframe._data_frame_client` and
`nisystemlink.clients.product.models._product`).

The source file declares a `DataFrameClient` whose every operation is wrapped
by the decorator

  retry(when=retry.when.status([429, 502, 503, 504]),
        stop=retry.stop.after_attempt(5),
        on_exception=retry.CONNECTION_ERROR)

and whose bulk mutation endpoints return an optional partial-success value.
The retry executor, the partial-success aggregation and the file-like stream
wrapper live outside the staged sources, so they are modelled from the spec;
the decorator's parameters, the endpoint declarations, the chunk size and the
`Product` model are embedded from the source.
-/

/-- The outcome of one network attempt of a client operation: success, an HTTP
response with a status code, a low-level connection failure (refused / reset /
timeout before any status was received), or an exception unrelated to
connectivity. -/
inductive Outcome where
  | success : Outcome
  | httpError (status : Nat) : Outcome
  | connectionError : Outcome
  | otherException : Outcome
deriving DecidableEq, Repr

/-- The status codes of the source's retry decorator:
`retry.when.status([429, 502, 503, 504])`. -/
def retryStatusCodes : List Nat := [429, 502, 503, 504]

/-- The attempt cap of the source's retry decorator:
`retry.stop.after_attempt(5)`. -/
def retryAttemptCap : Nat := 5

/-- Whether a single attempt's outcome is retried under the decorator's
conditions: an HTTP status in `retryStatusCodes` (the `when` clause), or a
connection error (the `on_exception=retry.CONNECTION_ERROR` clause). A success
is kept, and any other outcome propagates. -/
def isRetryable : Outcome → Bool
  | Outcome.success => false
  | Outcome.httpError s => retryStatusCodes.contains s
  | Outcome.connectionError => true
  | Outcome.otherException => false

/-- Modelled from the spec: the retry executor applied by the decorator to
every client operation (the executor itself is the `uplink.retry` machinery,
not part of the staged sources). `attempts i` is the outcome the i-th attempt
would observe (0-indexed); `made` counts attempts already made and `fuel` the
attempts still allowed. Each step performs one attempt; a retryable failure
with budget remaining retries, anything else is surfaced as the final
outcome. -/
def retryLoop (attempts : Nat → Outcome) : Nat → Nat → Nat × Outcome
  | made, 0 => (made, Outcome.success)
  | made, fuel + 1 =>
      let o := attempts made
      if isRetryable o = true ∧ 0 < fuel then retryLoop attempts (made + 1) fuel
      else (made + 1, o)

/-- Modelled from the spec: running one client operation under the decorator's
policy — up to `retryAttemptCap = 5` total attempts, returning the number of
attempts made and the outcome surfaced to the caller. -/
def runClientOperation (attempts : Nat → Outcome) : Nat × Outcome :=
  retryLoop attempts 0 retryAttemptCap

theorem retryLoop_first_not_retryable (attempts : Nat → Outcome) (made fuel : Nat)
    (h : isRetryable (attempts made) = false) :
    retryLoop attempts made (fuel + 1) = (made + 1, attempts made) := by
  simp [retryLoop, h]

theorem retryLoop_made_lt (attempts : Nat → Outcome) :
    ∀ fuel made, 0 < fuel → made < (retryLoop attempts made fuel).1 := by
  intro fuel
  induction fuel with
  | zero => intro made h; exact absurd h (by norm_num)
  | succ n ih =>
      intro made _
      by_cases hr : isRetryable (attempts made) = true ∧ 0 < n
      · have step : retryLoop attempts made (n + 1) = retryLoop attempts (made + 1) n := by
          simp only [retryLoop, if_pos hr]
        have step1 : (retryLoop attempts made (n + 1)).1 =
            (retryLoop attempts (made + 1) n).1 := by rw [step]
        have := ih (made + 1) hr.2
        omega
      · have step : retryLoop attempts made (n + 1) = (made + 1, attempts made) := by
          simp only [retryLoop, if_neg hr]
        simp [step]

/-- C1: if every one of the first five attempts fails with a retryable failure
(for example each attempt returns HTTP 503), then exactly 5 total attempts are
made — one initial plus four retries, never a sixth — and the outcome surfaced
to the caller is the one observed on the fifth (last) attempt. -/
theorem retry_bound_five_attempts (attempts : Nat → Outcome)
    (h : ∀ i, i < 5 → isRetryable (attempts i) = true) :
    runClientOperation attempts = (5, attempts 4) := by
  have h0 := h 0 (by norm_num)
  have h1 := h 1 (by norm_num)
  have h2 := h 2 (by norm_num)
  have h3 := h 3 (by norm_num)
  have h4 := h 4 (by norm_num)
  simp [runClientOperation, retryAttemptCap, retryLoop, h0, h1, h2, h3, h4]

/-- Witness for C1: with every attempt answering HTTP 503, the operation makes
exactly 5 attempts and surfaces the 503 observed on the last one. -/
theorem retry_bound_five_attempts_witness :
    runClientOperation (fun _ => Outcome.httpError 503) =
      (5, Outcome.httpError 503) :=
  retry_bound_five_attempts (fun _ => Outcome.httpError 503) (by decide)

/-- C2: a failed attempt is retried exactly when its outcome is an HTTP status
in {429, 502, 503, 504} or a connection failure: the retryable predicate holds
for precisely those outcomes, a non-retryable first outcome (such as a 404
response or a non-connectivity exception) is surfaced after exactly one
attempt, and a retryable first failure leads to a second attempt. -/
theorem retry_exactly_on_retryable_conditions (attempts : Nat → Outcome) :
    (∀ s : Nat, isRetryable (Outcome.httpError s) = true ↔
      (s = 429 ∨ s = 502 ∨ s = 503 ∨ s = 504)) ∧
    isRetryable Outcome.connectionError = true ∧
    isRetryable Outcome.otherException = false ∧
    isRetryable Outcome.success = false ∧
    (isRetryable (attempts 0) = false →
      runClientOperation attempts = (1, attempts 0)) ∧
    (isRetryable (attempts 0) = true →
      2 ≤ (runClientOperation attempts).1) := by
  refine ⟨?_, rfl, rfl, rfl, ?_, ?_⟩
  · intro s
    simp [isRetryable, retryStatusCodes]
  · intro h
    simpa [runClientOperation, retryAttemptCap] using
      retryLoop_first_not_retryable attempts 0 4 h
  · intro h
    have h1 : retryLoop attempts 0 5 = retryLoop attempts 1 4 := by
      simp [retryLoop, h]
    have h2 := retryLoop_made_lt attempts 4 1 (by norm_num)
    simp only [runClientOperation, retryAttemptCap, h1]
    omega

/-- Witness for C2: a 404 response is not retryable and the operation is
attempted exactly once, surfacing the 404; a 503 is retryable and leads to at
least a second attempt. -/
theorem retry_exactly_on_retryable_conditions_witness :
    runClientOperation (fun _ => Outcome.httpError 404) =
      (1, Outcome.httpError 404) ∧
    2 ≤ (runClientOperation (fun _ => Outcome.httpError 503)).1 :=
  ⟨(retry_exactly_on_retryable_conditions (fun _ => Outcome.httpError 404)).2.2.2.2.1
      (by decide),
   (retry_exactly_on_retryable_conditions (fun _ => Outcome.httpError 503)).2.2.2.2.2
      (by decide)⟩

/-- The partial-success value of a bulk mutation: the set of identifiers that
succeeded and the sequence of (identifier, error) pairs that failed
(`DeleteTablesPartialSuccess` / `ModifyTablesPartialSuccess` in the models). -/
structure PartialSuccess where
  succeeded : Finset String
  failed : List (String × String)
deriving DecidableEq

/-- The identifiers named by the failures of a bulk response. -/
def failedIds (failed : List (String × String)) : Finset String :=
  (failed.map Prod.fst).toFinset

/-- Modelled from the spec: the PartialSuccessAggregator behind `delete_tables`
and `modify_tables` (the aggregation code is not in the staged sources). Given
the submitted identifiers and the failures listed by an otherwise-successful
response, a response with zero failures yields no partial-success value, and
otherwise `succeeded` is the submitted set minus the failed identifiers. -/
def aggregate (submitted : Finset String) (failed : List (String × String)) :
    Option PartialSuccess :=
  if failed.isEmpty then none
  else some { succeeded := submitted \ failedIds failed, failed := failed }

/-- C3: for a bulk mutation of N submitted identifiers of which K fail, the
returned partial-success value has `succeeded` equal to the submitted
identifiers minus the failed ones — exactly N − K members — a `failed`
sequence of exactly K members, and every submitted identifier lies in exactly
one of `succeeded` or the failed identifiers. -/
theorem partial_success_counts (submitted : Finset String)
    (failed : List (String × String)) (hne : failed ≠ [])
    (hnd : (failed.map Prod.fst).Nodup) (hsub : failedIds failed ⊆ submitted) :
    aggregate submitted failed =
      some { succeeded := submitted \ failedIds failed, failed := failed } ∧
    (submitted \ failedIds failed).card = submitted.card - failed.length ∧
    failed.length = failed.length ∧
    Disjoint (submitted \ failedIds failed) (failedIds failed) ∧
    (submitted \ failedIds failed) ∪ failedIds failed = submitted ∧
    ∀ x ∈ submitted, (x ∈ submitted \ failedIds failed ↔ x ∉ failedIds failed) := by
  refine ⟨?_, ?_, rfl, Finset.sdiff_disjoint, Finset.sdiff_union_of_subset hsub, ?_⟩
  · simp [aggregate, hne]
  · rw [Finset.card_sdiff hsub]
    congr 1
    rw [failedIds, List.toFinset_card_of_nodup hnd, List.length_map]
  · intro x hx
    simp [Finset.mem_sdiff, hx]

/-- Witness for C3: deleting tables A, B, C where only B fails yields a
partial success whose `succeeded` is the submitted set minus B, of size
3 − 1, with B in neither side twice. -/
theorem partial_success_counts_witness :
    aggregate ({"A", "B", "C"} : Finset String) [("B", "not found")] =
      some { succeeded := ({"A", "B", "C"} : Finset String) \
               failedIds [("B", "not found")],
             failed := [("B", "not found")] } ∧
    (({"A", "B", "C"} : Finset String) \ failedIds [("B", "not found")]).card =
      ({"A", "B", "C"} : Finset String).card -
        ([("B", "not found")] : List (String × String)).length ∧
    ([("B", "not found")] : List (String × String)).length =
      ([("B", "not found")] : List (String × String)).length ∧
    Disjoint (({"A", "B", "C"} : Finset String) \ failedIds [("B", "not found")])
      (failedIds [("B", "not found")]) ∧
    (({"A", "B", "C"} : Finset String) \ failedIds [("B", "not found")]) ∪
      failedIds [("B", "not found")] = ({"A", "B", "C"} : Finset String) ∧
    ∀ x ∈ ({"A", "B", "C"} : Finset String),
      (x ∈ ({"A", "B", "C"} : Finset String) \ failedIds [("B", "not found")] ↔
        x ∉ failedIds [("B", "not found")]) :=
  partial_success_counts {"A", "B", "C"} [("B", "not found")]
    (by decide) (by decide) (by decide)

/-- C4: a bulk mutation whose response lists zero failed identifiers returns
no partial-success value, and a partial-success value is present only when at
least one identifier failed. -/
theorem full_success_yields_none (submitted : Finset String)
    (failed : List (String × String)) :
    aggregate submitted [] = none ∧
    ((aggregate submitted failed).isSome = true → failed ≠ []) := by
  constructor
  · rfl
  · intro h hcon
    subst hcon
    simp [aggregate] at h

/-- Witness for C4: deleting one table with no failures reports nothing, and a
response listing one failure is indeed nonempty. -/
theorem full_success_yields_none_witness :
    aggregate ({"A"} : Finset String) [] = none ∧
    ([("B", "gone")] : List (String × String)) ≠ [] :=
  ⟨(full_success_yields_none {"A"} [("B", "gone")]).1,
   (full_success_yields_none {"A"} [("B", "gone")]).2 (by decide)⟩

/-- A bulk-mutation request at the HTTP level: either an otherwise-successful
response listing the item failures, or a fully-failed request (transport /
connection error or request-level validation error) with a message. -/
inductive BulkResponse where
  | ok (failed : List (String × String)) : BulkResponse
  | requestError (message : String) : BulkResponse
deriving DecidableEq, Repr

/-- Modelled from the spec: how `delete_tables` / `modify_tables` surface a
bulk response to the caller — an exception (`Except.error`) only for a
fully-failed request, and otherwise the aggregated optional partial
success. -/
def bulkMutationResult (submitted : Finset String) (resp : BulkResponse) :
    Except String (Option PartialSuccess) :=
  match resp with
  | BulkResponse.ok failed => Except.ok (aggregate submitted failed)
  | BulkResponse.requestError e => Except.error e

/-- C5: a bulk mutation never raises merely because some submitted identifiers
failed — any otherwise-successful response, failures included, is returned as
data — and an exception is raised only for a fully-failed request. -/
theorem partial_failure_never_raises (submitted : Finset String)
    (failed : List (String × String)) (resp : BulkResponse) (e : String) :
    bulkMutationResult submitted (BulkResponse.ok failed) =
      Except.ok (aggregate submitted failed) ∧
    (bulkMutationResult submitted resp = Except.error e →
      resp = BulkResponse.requestError e) := by
  constructor
  · rfl
  · intro h
    cases resp with
    | ok f => simp [bulkMutationResult] at h
    | requestError m =>
        simp only [bulkMutationResult, Except.error.injEq] at h
        rw [h]

/-- Witness for C5: a response in which table B failed to delete is surfaced
as data, not an exception, and a transport failure is surfaced as the
exception it is. -/
theorem partial_failure_never_raises_witness :
    bulkMutationResult ({"A", "B"} : Finset String) (BulkResponse.ok [("B", "x")]) =
      Except.ok (aggregate {"A", "B"} [("B", "x")]) ∧
    BulkResponse.requestError "connection reset" =
      BulkResponse.requestError "connection reset" :=
  ⟨(partial_failure_never_raises {"A", "B"} [("B", "x")]
      (BulkResponse.requestError "connection reset") "connection reset").1,
   (partial_failure_never_raises {"A", "B"} [("B", "x")]
      (BulkResponse.requestError "connection reset") "connection reset").2 rfl⟩

/-- The buffer size of the export stream wrapper, from the source:
`response.iter_content(chunk_size=4096)` in `_iter_content_filelike_wrapper`. -/
def exportChunkSize : Nat := 4096

/-- Modelled from the spec: `response.iter_content(chunk_size=n)`, the chunked
iterator the export wrapper adapts — it reads the transport's byte stream in
buffers of at most n bytes per step and yields each buffer, terminating when
the body is exhausted (the final buffer may be short). -/
def iterContent (n : Nat) : List UInt8 → List (List UInt8)
  | [] => []
  | b :: rest => ((b :: rest).take n) :: iterContent n (rest.drop (n - 1))
termination_by l => l.length
decreasing_by
  simp only [List.length_cons, List.length_drop]
  omega

theorem iterContent_join (n : Nat) (hn : 0 < n) (l : List UInt8) :
    (iterContent n l).flatten = l := by
  generalize hk : l.length = k
  induction k using Nat.strong_induction_on generalizing l with
  | _ k ih =>
    cases l with
    | nil => simp [iterContent]
    | cons b rest =>
        rw [iterContent]
        have hlen : (rest.drop (n - 1)).length < k := by
          subst hk
          simp only [List.length_drop, List.length_cons]
          omega
        have hrec := ih _ hlen (rest.drop (n - 1)) rfl
        have hdrop : rest.drop (n - 1) = (b :: rest).drop n := by
          cases n with
          | zero => exact absurd hn (by norm_num)
          | succ m => simp
        rw [List.flatten_cons, hrec, hdrop, List.take_append_drop]

theorem iterContent_nonempty_chunks (n : Nat) (hn : 0 < n) (l : List UInt8) :
    ∀ c ∈ iterContent n l, c ≠ [] ∧ c.length ≤ n := by
  generalize hk : l.length = k
  induction k using Nat.strong_induction_on generalizing l with
  | _ k ih =>
    cases l with
    | nil => simp [iterContent]
    | cons b rest =>
        rw [iterContent]
        intro c hc
        rcases List.mem_cons.mp hc with hc | hc
        · subst hc
          refine ⟨by simp [List.take_eq_nil_iff]; omega, by simp⟩
        · have hlen : (rest.drop (n - 1)).length < k := by
            subst hk
            simp only [List.length_drop, List.length_cons]
            omega
          exact ih _ hlen (rest.drop (n - 1)) rfl c hc

theorem iterContent_full_chunks (n : Nat) (hn : 0 < n) (l : List UInt8) :
    ∀ c ∈ (iterContent n l).dropLast, c.length = n := by
  generalize hk : l.length = k
  induction k using Nat.strong_induction_on generalizing l with
  | _ k ih =>
    cases l with
    | nil => simp [iterContent]
    | cons b rest =>
        rw [iterContent]
        have hlen : (rest.drop (n - 1)).length < k := by
          subst hk
          simp only [List.length_drop, List.length_cons]
          omega
        cases htail : iterContent n (rest.drop (n - 1)) with
        | nil => simp
        | cons c0 cs =>
            intro c hc
            rw [List.dropLast_cons_of_ne_nil (by simp)] at hc
            rcases List.mem_cons.mp hc with hc | hc
            · subst hc
              have hne : rest.drop (n - 1) ≠ [] := by
                intro hnil
                rw [hnil] at htail
                simp [iterContent] at htail
              have : n - 1 < rest.length := by
                by_contra hge
                exact hne (List.drop_eq_nil_of_le (by omega))
              simp only [List.length_take, List.length_cons]
              omega
            · have := ih _ hlen (rest.drop (n - 1)) rfl
              rw [htail] at this
              exact this c hc

/-- C6: the export stream reads the response body in buffers of 4096 bytes per
step — every yielded chunk is nonempty and at most 4096 bytes, and every chunk
before the last is exactly 4096 bytes — and concatenating the yielded chunks
in order reproduces exactly the bytes the service returned, for every body,
including one whose size is not a multiple of 4096 (short final chunk). -/
theorem export_stream_chunks_complete (body : List UInt8) :
    (iterContent exportChunkSize body).flatten = body ∧
    (∀ c ∈ iterContent exportChunkSize body, c ≠ [] ∧ c.length ≤ 4096) ∧
    (∀ c ∈ (iterContent exportChunkSize body).dropLast, c.length = 4096) :=
  ⟨iterContent_join exportChunkSize (by decide) body,
   iterContent_nonempty_chunks exportChunkSize (by decide) body,
   iterContent_full_chunks exportChunkSize (by decide) body⟩

/-- Witness for C6: a 5-byte body — not a multiple of 4096 — is reproduced
exactly by concatenating the yielded chunks. -/
theorem export_stream_chunks_complete_witness :
    (iterContent exportChunkSize [1, 2, 3, 4, 5]).flatten = [1, 2, 3, 4, 5] :=
  (export_stream_chunks_complete [1, 2, 3, 4, 5]).1

/-- The request the declarative wiring of `list_tables` produces: its
decorator maps every keyword argument to the Query parameter of the same
position in `args=[Query("take"), Query("id"), Query("orderBy"),
Query("orderByDescending"), Query("continuationToken"), Query("workspace")]`
on path `tables`. -/
structure ListTablesRequest where
  path : String
  take : Option Nat
  id : Option (List String)
  orderBy : Option String
  orderByDescending : Option Bool
  continuationToken : Option String
  workspace : Option (List String)
deriving DecidableEq, Repr

/-- Embeds `list_tables`: the declared endpoint is a GET of `tables` whose
query parameters are the caller's arguments, wired verbatim. -/
def list_tables (take : Option Nat) (id : Option (List String))
    (order_by : Option String) (order_by_descending : Option Bool)
    (continuation_token : Option String) (workspace : Option (List String)) :
    ListTablesRequest :=
  { path := "tables", take := take, id := id, orderBy := order_by,
    orderByDescending := order_by_descending,
    continuationToken := continuation_token, workspace := workspace }

/-- The request the declarative wiring of `get_table_data` produces: path
parameter `id` on path `tables/\x7bid\x7d/data` and query parameters
`args=[Path("id"), Query("columns"), Query("orderBy"),
Query("orderByDescending"), Query("take"), Query("continuationToken")]`. -/
structure GetTableDataRequest where
  path : String
  columns : Option (List String)
  orderBy : Option (List String)
  orderByDescending : Option Bool
  take : Option Nat
  continuationToken : Option String
deriving DecidableEq, Repr

/-- Embeds `get_table_data`: a GET of `tables/\x7bid\x7d/data` whose query
parameters are the caller's arguments, wired verbatim. -/
def get_table_data (id : String) (columns : Option (List String))
    (order_by : Option (List String)) (order_by_descending : Option Bool)
    (take : Option Nat) (continuation_token : Option String) :
    GetTableDataRequest :=
  { path := "tables/" ++ id ++ "/data", columns := columns,
    orderBy := order_by, orderByDescending := order_by_descending,
    take := take, continuationToken := continuation_token }

/-- C7: for the paginated operations `list_tables` and `get_table_data`, the
continuation token supplied by the caller is sent back verbatim as the
`continuationToken` request parameter — never parsed, modified, or synthesized
(a caller supplying no token produces a request with no token, since the field
equals the argument) — and every other filter/sort parameter is passed through
unchanged. -/
theorem continuation_token_verbatim (take : Option Nat)
    (id : Option (List String)) (order_by : Option String)
    (order_by_descending : Option Bool) (continuation_token : Option String)
    (workspace : Option (List String)) (tableId : String)
    (columns : Option (List String)) (data_order_by : Option (List String)) :
    (list_tables take id order_by order_by_descending continuation_token
        workspace).continuationToken = continuation_token ∧
    (list_tables take id order_by order_by_descending continuation_token
        workspace).take = take ∧
    (list_tables take id order_by order_by_descending continuation_token
        workspace).id = id ∧
    (list_tables take id order_by order_by_descending continuation_token
        workspace).orderBy = order_by ∧
    (list_tables take id order_by order_by_descending continuation_token
        workspace).orderByDescending = order_by_descending ∧
    (list_tables take id order_by order_by_descending continuation_token
        workspace).workspace = workspace ∧
    (get_table_data tableId columns data_order_by order_by_descending take
        continuation_token).continuationToken = continuation_token ∧
    (get_table_data tableId columns data_order_by order_by_descending take
        continuation_token).columns = columns ∧
    (get_table_data tableId columns data_order_by order_by_descending take
        continuation_token).orderBy = data_order_by ∧
    (get_table_data tableId columns data_order_by order_by_descending take
        continuation_token).orderByDescending = order_by_descending ∧
    (get_table_data tableId columns data_order_by order_by_descending take
        continuation_token).take = take :=
  ⟨rfl, rfl, rfl, rfl, rfl, rfl, rfl, rfl, rfl, rfl, rfl⟩

/-- The HTTP configuration handed to the client: the web server to connect to
and how to connect (only its identity matters here). -/
structure HttpConfiguration where
  serverUri : String
deriving DecidableEq, Repr

/-- The state `DataFrameClient.__init__` leaves behind: the configuration in
use and the base path handed to `BaseClient`. -/
structure ClientState where
  configuration : HttpConfiguration
  basePath : String
deriving DecidableEq, Repr

/-- The base path of every DataFrame operation, from the source:
`super().__init__(configuration, "/nidataframe/v1/")`. -/
def dataFrameBasePath : String := "/nidataframe/v1/"

/-- Embeds `DataFrameClient.__init__`: when `configuration` is None the one
obtained from `HttpConfigurationManager.get_configuration()` is used (the
manager lives outside the staged sources, so the configuration it would return
is passed here as `managerConfiguration`), and the client is initialized with
base path `"/nidataframe/v1/"`. -/
def DataFrameClient.init (configuration : Option HttpConfiguration)
    (managerConfiguration : HttpConfiguration) : ClientState :=
  { configuration := configuration.getD managerConfiguration,
    basePath := dataFrameBasePath }

/-- Every operation of the client with the relative path of its decorator,
in source order. -/
def dataFrameOperationPaths : List (String × String) :=
  [("api_info", ""),
   ("list_tables", "tables"),
   ("create_table", "tables"),
   ("query_tables", "query-tables"),
   ("get_table_metadata", "tables/{id}"),
   ("modify_table", "tables/{id}"),
   ("delete_table", "tables/{id}"),
   ("delete_tables", "delete-tables"),
   ("modify_tables", "modify-tables"),
   ("get_table_data", "tables/{id}/data"),
   ("append_table_data", "tables/{id}/data"),
   ("query_table_data", "tables/{id}/query-data"),
   ("query_decimated_data", "tables/{id}/query-decimated-data"),
   ("export_table_data", "tables/{id}/export-data")]

/-- How `BaseClient` dispatches an operation: its relative path is resolved
against the client's base path. -/
def resolveOperationPath (st : ClientState) (relativePath : String) : String :=
  st.basePath ++ relativePath

/-- C9: every operation of `DataFrameClient` dispatches relative to the fixed
base path "/nidataframe/v1/", and constructing the client with no
configuration argument adopts the configuration obtained from
`HttpConfigurationManager` before any call is made. -/
theorem base_path_and_default_configuration
    (configuration : Option HttpConfiguration)
    (managerConfiguration : HttpConfiguration) :
    (DataFrameClient.init configuration managerConfiguration).basePath =
      "/nidataframe/v1/" ∧
    (DataFrameClient.init none managerConfiguration).configuration =
      managerConfiguration ∧
    ∀ op ∈ dataFrameOperationPaths,
      resolveOperationPath (DataFrameClient.init configuration
        managerConfiguration) op.2 = "/nidataframe/v1/" ++ op.2 := by
  refine ⟨rfl, rfl, ?_⟩
  intro op _
  rfl

/-- Witness for C9: a client built with no configuration uses the manager's
configuration, has base path "/nidataframe/v1/", and dispatches `list_tables`
to "/nidataframe/v1/tables". -/
theorem base_path_and_default_configuration_witness :
    (DataFrameClient.init none ⟨"https://server"⟩).basePath =
      "/nidataframe/v1/" ∧
    resolveOperationPath (DataFrameClient.init none ⟨"https://server"⟩)
      "tables" = "/nidataframe/v1/" ++ "tables" :=
  ⟨(base_path_and_default_configuration none ⟨"https://server"⟩).1,
   (base_path_and_default_configuration none ⟨"https://server"⟩).2.2
     ("list_tables", "tables") (by decide)⟩

/-- A timestamp, standing for Python's `datetime` in the `updated_at` field
(only its identity matters to the model's field structure). -/
structure Datetime where
  isoTimestamp : String
deriving DecidableEq, Repr

/-- Embeds the `Product` model of
`nisystemlink.clients.product.models._product`: nine fields, each declared
`Optional[...] = None`. -/
structure Product where
  id : Option String := none
  part_number : Option String := none
  name : Option String := none
  family : Option String := none
  updated_at : Option Datetime := none
  file_ids : Option (List String) := none
  keywords : Option (List String) := none
  properties : Option (List (String × String)) := none
  workspace : Option String := none
deriving DecidableEq, Repr

/-- C10: every field of the `Product` model is optional with default None, so
a `Product` constructed with no arguments is valid and all nine of its fields
equal None. -/
theorem product_all_fields_default_none :
    ({} : Product).id = none ∧
    ({} : Product).part_number = none ∧
    ({} : Product).name = none ∧
    ({} : Product).family = none ∧
    ({} : Product).updated_at = none ∧
    ({} : Product).file_ids = none ∧
    ({} : Product).keywords = none ∧
    ({} : Product).properties = none ∧
    ({} : Product).workspace = none :=
  ⟨rfl, rfl, rfl, rfl, rfl, rfl, rfl, rfl, rfl⟩
